import Mathlib

/-
Verification of the C++ project scaffolding tool (`cpp_project_setup.py`).

The program is a single linear workflow: prompt for a project name, validate
it, create a root directory and six fixed subdirectories, run `git init`,
and write nine boilerplate files.  We embed it shallowly:

* The filesystem is an explicit state `FS` (a list of directory paths and an
  association list of file paths to contents); a path is a `List String` of
  segments relative to the working directory.
* OS-level failures are an oracle environment `Env`: for each path it says
  whether `Path.mkdir` / `Path.write_text` raises, and whether `git init`
  fails.  The possible exceptions are modelled by small inductive types
  restricted to what the corresponding Python call can raise
  (`OSError` subclasses for the filesystem calls; `CalledProcessError` or
  `FileNotFoundError` for `subprocess.run(["git","init"], check=True)`).
* Exception propagation is modelled with `Except PyExc`: the raw operations
  may raise, the wrapped operations (`create_directory`, `create_file`,
  `initialize_git_repo`, `create_cmake_files`) catch exactly the classes
  named in their `except` clauses (using the Python exception hierarchy:
  `PermissionError`, `FileNotFoundError` and `FileExistsError` are
  subclasses of `OSError`; `CalledProcessError` is not).
* For reasoning about the orchestrator we use an equivalent total layer
  (`create_directoryB`, ...) on a `World` that additionally records the
  trace of attempted operations; bridge lemmas prove the two layers agree.
* `git init`'s own filesystem artifacts (the `.git` directory) are outside
  the model: the tool only observes the subprocess's exit status.
-/

set_option autoImplicit false

namespace CppForge

/-! ## Exceptions and the error oracle -/

/-- The Python exceptions relevant to this program. -/
inductive PyExc where
  | permissionError
  | fileNotFoundError
  | fileExistsError
  | osError
  | calledProcessError
deriving Repr, DecidableEq

/-- `e` is `OSError` or one of its subclasses (`PermissionError`,
`FileNotFoundError`, `FileExistsError`).  `CalledProcessError` derives from
`SubprocessError`, not `OSError`. -/
def isOSErrorSubclass : PyExc → Bool
  | .calledProcessError => false
  | _ => true

/-- Exceptions `Path.mkdir` / `Path.write_text` can raise: members of the
`OSError` hierarchy (the contents written here are fixed ASCII literals, so
encoding errors cannot occur). -/
inductive FsErr where
  | permissionError
  | fileNotFoundError
  | fileExistsError
  | osError
deriving Repr, DecidableEq

def FsErr.toExc : FsErr → PyExc
  | .permissionError => .permissionError
  | .fileNotFoundError => .fileNotFoundError
  | .fileExistsError => .fileExistsError
  | .osError => .osError

/-- Exceptions `subprocess.run(["git", "init"], check=True, ...)` can raise:
`CalledProcessError` (nonzero exit status) or `FileNotFoundError` (the `git`
binary is absent). -/
inductive GitErr where
  | calledProcessError
  | fileNotFoundError
deriving Repr, DecidableEq

def GitErr.toExc : GitErr → PyExc
  | .calledProcessError => .calledProcessError
  | .fileNotFoundError => .fileNotFoundError

/-- The catch set of `except (PermissionError, OSError)` in
`create_directory` and `create_file` (and of `except (OSError, IOError)` in
`create_cmake_files`; `IOError` is an alias of `OSError`). -/
def fsHandlerCatches (e : PyExc) : Bool :=
  (e == .permissionError) || isOSErrorSubclass e

/-- The catch set of `except (subprocess.CalledProcessError,
FileNotFoundError)` in `initialize_git_repo`. -/
def gitHandlerCatches (e : PyExc) : Bool :=
  (e == .calledProcessError) || (e == .fileNotFoundError)

/-- The error oracle: which OS calls fail in a given run, and how. -/
structure Env where
  mkdirErr : List String → Option FsErr
  writeErr : List String → Option FsErr
  gitErr : Option GitErr

/-! ## Filesystem state -/

/-- Filesystem state: the set of existing directories and the files with
their contents.  Paths are segment lists relative to the working
directory. -/
structure FS where
  dirs : List (List String)
  files : List (List String × String)
deriving Repr, DecidableEq

def FS.empty : FS := ⟨[], []⟩

/-- The nonempty prefixes of a path: the path itself and all its
ancestors. -/
def ancestorsOf (p : List String) : List (List String) :=
  (List.range p.length).map (fun i => p.take (i + 1))

/-- Append a directory if it is not already present. -/
def addDir (ds : List (List String)) (q : List String) : List (List String) :=
  if q ∈ ds then ds else ds ++ [q]

/-- Effect of a successful `path.mkdir(parents=True, exist_ok=True)`:
if the directory exists nothing happens; otherwise the directory and every
missing ancestor are created. -/
def applyMkdir (fs : FS) (p : List String) : FS :=
  if p ∈ fs.dirs then fs
  else { fs with dirs := (ancestorsOf p).foldl addDir fs.dirs }

/-- Effect of a successful `path.write_text(content)`: create the file or
overwrite its content. -/
def setFiles (files : List (List String × String)) (p : List String)
    (c : String) : List (List String × String) :=
  if p ∈ files.map Prod.fst then
    files.map (fun e => if e.1 = p then (p, c) else e)
  else files ++ [(p, c)]

def setFileFS (fs : FS) (p : List String) (c : String) : FS :=
  { fs with files := setFiles fs.files p c }

def parentDir (p : List String) : List String := p.dropLast

/-- Content of a file, if present. -/
def lookupFileContent (fs : FS) (p : List String) : Option String :=
  (fs.files.filter (fun e => e.1 = p)).head?.map Prod.snd

/-! ## Raw OS calls (may raise) -/

/-- `path.mkdir(parents=True, exist_ok=True)`: raises whatever the oracle
says; otherwise succeeds, creating the directory and missing ancestors. -/
def rawMkdir (env : Env) (fs : FS) (p : List String) : Except PyExc FS :=
  match env.mkdirErr p with
  | some e => .error e.toExc
  | none => .ok (applyMkdir fs p)

/-- `path.write_text(content)`: raises whatever the oracle says; raises
`FileNotFoundError` when the parent directory is missing; otherwise writes
the file. -/
def rawWriteText (env : Env) (fs : FS) (p : List String) (c : String) :
    Except PyExc FS :=
  match env.writeErr p with
  | some e => .error e.toExc
  | none =>
    if parentDir p ∈ fs.dirs then .ok (setFileFS fs p c)
    else .error .fileNotFoundError

/-- `subprocess.run(["git", "init"], cwd=path, check=True, ...)`. -/
def rawGitInit (env : Env) : Except PyExc Unit :=
  match env.gitErr with
  | some e => .error e.toExc
  | none => .ok ()

/-! ## The wrapped operations (source: `cpp_project_setup.py`) -/

/-- `create_directory(path)`: try `mkdir`, return `True` on success,
catch `(PermissionError, OSError)` and return `False`; anything else would
propagate. -/
def create_directory (env : Env) (fs : FS) (p : List String) :
    Except PyExc (FS × Bool) :=
  match rawMkdir env fs p with
  | .ok fs' => .ok (fs', true)
  | .error e => if fsHandlerCatches e then .ok (fs, false) else .error e

/-- `create_file(path, content)`: try `write_text`, return `True` on
success, catch `(PermissionError, OSError)` and return `False`. -/
def create_file (env : Env) (fs : FS) (p : List String) (c : String) :
    Except PyExc (FS × Bool) :=
  match rawWriteText env fs p c with
  | .ok fs' => .ok (fs', true)
  | .error e => if fsHandlerCatches e then .ok (fs, false) else .error e

/-- `initialize_git_repo(path)`: run `git init`, return `True` on success,
catch `(subprocess.CalledProcessError, FileNotFoundError)` and return
`False`. -/
def initialize_git_repo (env : Env) : Except PyExc Bool :=
  match rawGitInit env with
  | .ok _ => .ok true
  | .error e => if gitHandlerCatches e then .ok false else .error e

/-! ## Name validation (source: `is_valid_project_name`) -/

/-- The character class `[a-zA-Z0-9_-]` of the validation regex. -/
def isWordChar (c : Char) : Bool :=
  c.isAlpha || c.isDigit || c == '_' || c == '-'

/-- `is_valid_project_name(name)` is
`bool(re.match(r"^[a-zA-Z0-9_-]+$", name))`.  Python `re.match` anchors at
the start of the string, and `$` (without `re.MULTILINE`) matches at the end
of the string **or just before a newline at the end of the string**.  So the
regex matches iff some nonempty prefix consists of class characters and the
remainder is empty or a single final newline. -/
def is_valid_project_name (name : String) : Bool :=
  let cs := name.data
  (List.range cs.length).any (fun j =>
    ((cs.take (j + 1)).all isWordChar) &&
    ((cs.drop (j + 1)).isEmpty || cs.drop (j + 1) == ['\n']))

/-! ## Generated contents (source constants and f-strings) -/

def SUBDIRS : List String := ["src", "include", "lib", "bin", "tests", "docs"]

def GITIGNORE_CONTENT : String :=
  "# Compiled object files\n*.o\n*.obj\n*.so\n*.a\n*.dll\n*.dylib\n\n# Executables\n*.exe\n*.out\n*.app\n\n# Build directories\nbuild/\nbin/\nlib/\n\n# IDE files\n.vscode/\n.idea/\n.history/\n*.suo\n*.user\n*.sdf\n*.opensdf\n*.sln.docstates\n\n# CMake files\nCMakeCache.txt\nCMakeFiles/\ncmake_install.cmake\nMakefile\n\n# Debug files\n*.dSYM/\n*.pdb\n*.ilk\n\n# Temporary files\n*.log\n*.tlog\n*.tmp\n*.temp\n*.swp\n*~\n\n# OS specific files\n.DS_Store\nThumbs.db\n"

/-- `root_cmake_content` f-string from `create_cmake_files` (the doubled
braces of the f-string render as single braces, written `\x7b`/`\x7d`
here). -/
def root_cmake_content (project_name : String) : String :=
  "cmake_minimum_required(VERSION 3.10)\nproject(" ++ project_name ++
  " VERSION 1.0 LANGUAGES CXX)\n\nset(CMAKE_CXX_STANDARD 17)\nset(CMAKE_CXX_STANDARD_REQUIRED True)\n\n# Set output directories\nset(CMAKE_RUNTIME_OUTPUT_DIRECTORY $\x7bCMAKE_BINARY_DIR\x7d/bin)\nset(CMAKE_LIBRARY_OUTPUT_DIRECTORY $\x7bCMAKE_BINARY_DIR\x7d/lib)\nset(CMAKE_ARCHIVE_OUTPUT_DIRECTORY $\x7bCMAKE_BINARY_DIR\x7d/lib)\n\n# Compiler flags\nif (CMAKE_CXX_COMPILER_ID STREQUAL \"GNU\" OR CMAKE_CXX_COMPILER_ID STREQUAL \"Clang\")\n    add_compile_options(-Wall -Wextra -Wpedantic)\nelseif (CMAKE_CXX_COMPILER_ID STREQUAL \"MSVC\")\n    add_compile_options(/W4 /permissive-)\nendif()\n\nadd_subdirectory(src)\nadd_subdirectory(tests)\nadd_subdirectory(docs)\n"

def src_cmake_content : String :=
  "add_executable($\x7bPROJECT_NAME\x7d main.cpp)\n"

def tests_cmake_content : String :=
  "enable_testing()\nadd_executable($\x7bPROJECT_NAME\x7d_test test_main.cpp)\nadd_test(NAME $\x7bPROJECT_NAME\x7d_test COMMAND $\x7bPROJECT_NAME\x7d_test)\n"

def docs_cmake_content : String :=
  "find_package(Doxygen)\nif (DOXYGEN_FOUND)\n    configure_file(Doxyfile.in Doxyfile @ONLY)\n    add_custom_target(doc\n        COMMAND $\x7bDOXYGEN_EXECUTABLE\x7d Doxyfile\n        WORKING_DIRECTORY $\x7bCMAKE_CURRENT_SOURCE_DIR\x7d\n        COMMENT \"Generating API documentation with Doxygen\"\n        VERBATIM)\nendif()\n"

/-- The `readme_content` f-string from `setup_cpp_project`. -/
def readme_content (project_name : String) : String :=
  "# " ++ project_name ++
  "\n\nA C++ project.\n\n## Directory Structure\n\n- `src/`: Source files\n- `include/`: Header files\n- `lib/`: Libraries\n- `bin/`: Executable files\n- `tests/`: Unit tests\n- `docs/`: Documentation\n\n## Build Instructions\n\n[Add build instructions here]\n\n## Setup Instructions\n\nTo set up this project, run the `cpp_project_setup.py` script in the folder where you want the C++ project folder to be created. For example:\n\n```sh\npython path/to/cpp_project_setup.py\n```\n\n## License\n\n[Add license information here]\n"

def main_cpp_content : String :=
  "#include <iostream>\n\nint main() \x7b\n    std::cout << \"Hello, World!\" << std::endl;\n    return 0;\n\x7d\n"

def header_content : String :=
  "#ifndef PROJECT_HEADER_H\n#define PROJECT_HEADER_H\n\n// Add your header content here\n\n#endif // PROJECT_HEADER_H\n"

def test_content : String :=
  "#include <iostream>\n\nint main() \x7b\n    std::cout << \"Running tests...\" << std::endl;\n    // Add your test code here\n    return 0;\n\x7d\n"

/-- `create_cmake_files(path, project_name)`: four `create_file` calls in a
`try` block that returns `True`; `except (OSError, IOError)` returns
`False` (dead in practice, since `create_file` catches its own errors). -/
def create_cmake_files (env : Env) (fs : FS) (path : List String)
    (project_name : String) : Except PyExc (FS × Bool) :=
  let body : Except PyExc FS :=
    Except.bind (create_file env fs (path ++ ["CMakeLists.txt"])
        (root_cmake_content project_name)) (fun r1 =>
      Except.bind (create_file env r1.1 (path ++ ["src", "CMakeLists.txt"])
          src_cmake_content) (fun r2 =>
        Except.bind (create_file env r2.1
            (path ++ ["tests", "CMakeLists.txt"]) tests_cmake_content)
          (fun r3 =>
          Except.bind (create_file env r3.1
              (path ++ ["docs", "CMakeLists.txt"]) docs_cmake_content)
            (fun r4 => Except.ok r4.1))))
  match body with
  | .ok fs' => .ok (fs', true)
  | .error e => if fsHandlerCatches e then .ok (fs, false) else .error e

/-- Reduction of `Except.bind` at an `ok` value. -/
theorem exceptBind_ok {ε α β : Type} (a : α) (f : α → Except ε β) :
    Except.bind (Except.ok a) f = f a := rfl

/-! ## Total (instrumented) layer

For reasoning about the orchestrator it is convenient to work with total
functions that also record the trace of attempted OS operations.  The
bridge lemmas below prove that each instrumented operation agrees with the
exception-level operation above. -/

/-- Filesystem state plus the trace of attempted operations. -/
structure World where
  fs : FS
  mkdirCalls : List (List String)
  writeCalls : List (List String × String)
  gitCalls : List (List String)
deriving Repr, DecidableEq

def World.init (fs : FS) : World := ⟨fs, [], [], []⟩

/-- Instrumented `create_directory`. -/
def create_directoryB (env : Env) (w : World) (p : List String) :
    World × Bool :=
  let w1 := { w with mkdirCalls := w.mkdirCalls ++ [p] }
  match env.mkdirErr p with
  | some _ => (w1, false)
  | none => ({ w1 with fs := applyMkdir w1.fs p }, true)

/-- Instrumented `create_file`. -/
def create_fileB (env : Env) (w : World) (p : List String) (c : String) :
    World × Bool :=
  let w1 := { w with writeCalls := w.writeCalls ++ [(p, c)] }
  match env.writeErr p with
  | some _ => (w1, false)
  | none =>
    if parentDir p ∈ w1.fs.dirs then
      ({ w1 with fs := setFileFS w1.fs p c }, true)
    else (w1, false)

/-- Instrumented `initialize_git_repo` (invoked with `cwd = p`). -/
def initialize_git_repoB (env : Env) (w : World) (p : List String) :
    World × Bool :=
  ({ w with gitCalls := w.gitCalls ++ [p] }, env.gitErr.isNone)

/-- Instrumented `create_cmake_files`: the `try` body runs the four
`create_file` calls (which never raise) and then returns `True`. -/
def create_cmake_filesB (env : Env) (w : World) (path : List String)
    (project_name : String) : World × Bool :=
  let r1 := create_fileB env w (path ++ ["CMakeLists.txt"])
    (root_cmake_content project_name)
  let r2 := create_fileB env r1.1 (path ++ ["src", "CMakeLists.txt"])
    src_cmake_content
  let r3 := create_fileB env r2.1 (path ++ ["tests", "CMakeLists.txt"])
    tests_cmake_content
  let r4 := create_fileB env r3.1 (path ++ ["docs", "CMakeLists.txt"])
    docs_cmake_content
  (r4.1, true)

/-! ## Orchestrator (source: `setup_cpp_project`) -/

inductive Outcome where
  | aborted
  | completed
deriving Repr, DecidableEq

/-- Orchestrator-visible warning messages (`logging.warning` calls in
`setup_cpp_project`, with the `%s` substitution applied). -/
def warnSubdir (d : String) : String :=
  "Failed to create " ++ d ++ " directory. Continuing with setup..."

def warnGit : String :=
  "Failed to initialize Git repository. Continuing with setup..."

def warnGitignore : String :=
  "Failed to create .gitignore file. Continuing with setup..."

def warnReadme : String :=
  "Failed to create README.md file. Continuing with setup..."

def warnCmake : String :=
  "Failed to create CMakeLists.txt files. Continuing with setup..."

def warnMain : String :=
  "Failed to create main.cpp file. Continuing with setup..."

def warnHeader : String :=
  "Failed to create header file. Continuing with setup..."

def warnTest : String :=
  "Failed to create test file. Continuing with setup..."

/-- Orchestrator state: the world plus the warnings logged so far. -/
structure OState where
  w : World
  warnings : List String
deriving Repr, DecidableEq

/-- One iteration of the subdirectory loop:
`if not create_directory(root / subdir): logging.warning(...)`. -/
def subdirStep (env : Env) (root : List String) (s : OState) (d : String) :
    OState :=
  let r := create_directoryB env s.w (root ++ [d])
  { w := r.1
    warnings := if r.2 then s.warnings else s.warnings ++ [warnSubdir d] }

def subdirStage (env : Env) (root : List String) (s : OState) : OState :=
  SUBDIRS.foldl (subdirStep env root) s

/-- `if not initialize_git_repo(root_dir): logging.warning(...)`. -/
def gitStage (env : Env) (root : List String) (s : OState) : OState :=
  let r := initialize_git_repoB env s.w root
  { w := r.1
    warnings := if r.2 then s.warnings else s.warnings ++ [warnGit] }

/-- `if not create_file(p, content): logging.warning(msg)`. -/
def fileStage (env : Env) (p : List String) (c : String) (msg : String)
    (s : OState) : OState :=
  let r := create_fileB env s.w p c
  { w := r.1
    warnings := if r.2 then s.warnings else s.warnings ++ [msg] }

/-- `if not create_cmake_files(root_dir, project_name): logging.warning(...)`. -/
def cmakeStage (env : Env) (root : List String) (project_name : String)
    (s : OState) : OState :=
  let r := create_cmake_filesB env s.w root project_name
  { w := r.1
    warnings := if r.2 then s.warnings else s.warnings ++ [warnCmake] }

/-- Result of the post-validation part of `setup_cpp_project`. -/
structure RunResult where
  w : World
  outcome : Outcome
  warnings : List String
deriving Repr, DecidableEq

/-- The body of `setup_cpp_project` after a validated name has been read:
root directory (fatal on failure), subdirectories, `git init`, and the nine
generated files, each non-fatal failure producing a warning. -/
def setup_cpp_project_body (project_name : String) (env : Env) (fs : FS) :
    RunResult :=
  let root : List String := [project_name]
  let r0 := create_directoryB env (World.init fs) root
  if r0.2 then
    let s : OState := ⟨r0.1, []⟩
    let s := subdirStage env root s
    let s := gitStage env root s
    let s := fileStage env (root ++ [".gitignore"]) GITIGNORE_CONTENT
      warnGitignore s
    let s := fileStage env (root ++ ["README.md"])
      (readme_content project_name) warnReadme s
    let s := cmakeStage env root project_name s
    let s := fileStage env (root ++ ["src", "main.cpp"]) main_cpp_content
      warnMain s
    let s := fileStage env (root ++ ["include", "project_header.h"])
      header_content warnHeader s
    let s := fileStage env (root ++ ["tests", "test_main.cpp"]) test_content
      warnTest s
    ⟨s.w, .completed, s.warnings⟩
  else
    ⟨r0.1, .aborted, []⟩

/-! ## Prompt loop and process entry (source: prompt loop and `__main__`) -/

/-- One interaction with `input()`: either a line of text (without its
trailing newline, which `input()` strips) or a `KeyboardInterrupt`. -/
inductive InputEvent where
  | line (s : String)
  | interrupt
deriving Repr, DecidableEq

inductive PromptResult where
  | gotName (n : String)
  | interrupted
  | exhausted
deriving Repr, DecidableEq

/-- The `while True` prompt loop: empty names and invalid names repeat the
prompt; a valid name breaks out; a `KeyboardInterrupt` propagates.  If the
supplied input events run out, the result is `exhausted` (an `EOFError`
from `input()`, which this development does not model further). -/
def promptLoop : List InputEvent → PromptResult
  | [] => .exhausted
  | .interrupt :: _ => .interrupted
  | .line s :: rest =>
    if s = "" then promptLoop rest
    else if is_valid_project_name s then .gotName s
    else promptLoop rest

inductive SetupResult where
  | returned (r : RunResult)
  | interrupted (fs : FS)
deriving Repr, DecidableEq

/-- `setup_cpp_project()` in full: run the prompt loop, then the body.
A `KeyboardInterrupt` during prompting escapes the function. -/
def setup_cpp_project (inputs : List InputEvent) (env : Env) (fs : FS) :
    Option SetupResult :=
  match promptLoop inputs with
  | .exhausted => none
  | .interrupted => some (.interrupted fs)
  | .gotName n => some (.returned (setup_cpp_project_body n env fs))

/-- The `__main__` guard: `setup_cpp_project()` returning normally exits
with status 0; a `KeyboardInterrupt` is caught and exits via
`sys.exit(1)`. -/
def main_exit (inputs : List InputEvent) (env : Env) (fs : FS) :
    Option (Nat × FS) :=
  match setup_cpp_project inputs env fs with
  | some (.returned r) => some (0, r.w.fs)
  | some (.interrupted fs') => some (1, fs')
  | none => none

/-! ## Fixed descriptions of an unobstructed run -/

/-- The environment in which no OS call fails. -/
def noFailEnv : Env := ⟨fun _ => none, fun _ => none, none⟩

/-- The nine file writes a completed run attempts, in program order. -/
def generatedWrites (n : String) : List (List String × String) :=
  [([n, ".gitignore"], GITIGNORE_CONTENT),
   ([n, "README.md"], readme_content n),
   ([n, "CMakeLists.txt"], root_cmake_content n),
   ([n, "src", "CMakeLists.txt"], src_cmake_content),
   ([n, "tests", "CMakeLists.txt"], tests_cmake_content),
   ([n, "docs", "CMakeLists.txt"], docs_cmake_content),
   ([n, "src", "main.cpp"], main_cpp_content),
   ([n, "include", "project_header.h"], header_content),
   ([n, "tests", "test_main.cpp"], test_content)]

/-- The directories a fresh unobstructed run creates, in creation order. -/
def generatedDirs (n : String) : List (List String) :=
  [[n], [n, "src"], [n, "include"], [n, "lib"], [n, "bin"], [n, "tests"],
   [n, "docs"]]

/-- Every possible orchestrator warning message. -/
def allWarnList : List String :=
  [warnGit, warnGitignore, warnReadme, warnMain, warnHeader, warnTest] ++
    SUBDIRS.map warnSubdir

/-- An environment in which every OS call fails. -/
def envAllFail : Env :=
  ⟨fun _ => some .permissionError, fun _ => some .osError,
    some .calledProcessError⟩

/-- An environment in which only the write of the root build descriptor of
project `q` fails. -/
def envCmakeFail : Env :=
  ⟨fun _ => none,
    fun p => if p = ["q", "CMakeLists.txt"] then some .permissionError
      else none,
    none⟩

/-- An environment in which every `mkdir` fails (so root creation fails). -/
def envRootFail : Env :=
  ⟨fun _ => some .permissionError, fun _ => none, none⟩

/-! ## Bridge lemmas: the instrumented layer agrees with the
exception-level operations -/

theorem create_directory_eq_B (env : Env) (w : World) (p : List String) :
    create_directory env w.fs p =
      .ok (((create_directoryB env w p).1).fs, (create_directoryB env w p).2) := by
  unfold create_directory create_directoryB rawMkdir
  cases h : env.mkdirErr p with
  | none => rfl
  | some e => cases e <;> rfl

theorem create_file_eq_B (env : Env) (w : World) (p : List String)
    (c : String) :
    create_file env w.fs p c =
      .ok (((create_fileB env w p c).1).fs, (create_fileB env w p c).2) := by
  unfold create_file create_fileB rawWriteText
  cases h : env.writeErr p with
  | none =>
    by_cases hp : parentDir p ∈ w.fs.dirs <;>
      simp [hp, setFileFS, fsHandlerCatches, isOSErrorSubclass]
  | some e => cases e <;> rfl

theorem initialize_git_repo_eq_B (env : Env) (w : World) (p : List String) :
    initialize_git_repo env = .ok ((initialize_git_repoB env w p).2) := by
  unfold initialize_git_repo initialize_git_repoB rawGitInit
  cases h : env.gitErr with
  | none => rfl
  | some e => cases e <;> rfl

/-! ## Projection lemmas for the instrumented operations -/

theorem create_directoryB_snd (env : Env) (w : World) (p : List String) :
    (create_directoryB env w p).2 = (env.mkdirErr p).isNone := by
  unfold create_directoryB
  cases env.mkdirErr p <;> rfl

theorem create_directoryB_mkdirCalls (env : Env) (w : World)
    (p : List String) :
    ((create_directoryB env w p).1).mkdirCalls = w.mkdirCalls ++ [p] := by
  unfold create_directoryB
  cases env.mkdirErr p <;> rfl

theorem create_directoryB_writeCalls (env : Env) (w : World)
    (p : List String) :
    ((create_directoryB env w p).1).writeCalls = w.writeCalls := by
  unfold create_directoryB
  cases env.mkdirErr p <;> rfl

theorem create_directoryB_gitCalls (env : Env) (w : World)
    (p : List String) :
    ((create_directoryB env w p).1).gitCalls = w.gitCalls := by
  unfold create_directoryB
  cases env.mkdirErr p <;> rfl

theorem create_fileB_snd_of_err (env : Env) (w : World) (p : List String)
    (c : String) (e : FsErr) (h : env.writeErr p = some e) :
    (create_fileB env w p c).2 = false := by
  unfold create_fileB
  simp [h]

theorem create_fileB_writeCalls (env : Env) (w : World) (p : List String)
    (c : String) :
    ((create_fileB env w p c).1).writeCalls = w.writeCalls ++ [(p, c)] := by
  unfold create_fileB
  cases env.writeErr p with
  | none => by_cases hp : parentDir p ∈ w.fs.dirs <;> simp [hp]
  | some e => rfl

theorem create_fileB_mkdirCalls (env : Env) (w : World) (p : List String)
    (c : String) :
    ((create_fileB env w p c).1).mkdirCalls = w.mkdirCalls := by
  unfold create_fileB
  cases env.writeErr p with
  | none => by_cases hp : parentDir p ∈ w.fs.dirs <;> simp [hp]
  | some e => rfl

theorem create_fileB_gitCalls (env : Env) (w : World) (p : List String)
    (c : String) :
    ((create_fileB env w p c).1).gitCalls = w.gitCalls := by
  unfold create_fileB
  cases env.writeErr p with
  | none => by_cases hp : parentDir p ∈ w.fs.dirs <;> simp [hp]
  | some e => rfl

theorem create_cmake_filesB_snd (env : Env) (w : World) (path : List String)
    (n : String) : (create_cmake_filesB env w path n).2 = true := rfl

theorem create_cmake_filesB_writeCalls (env : Env) (w : World)
    (path : List String) (n : String) :
    ((create_cmake_filesB env w path n).1).writeCalls =
      w.writeCalls ++
        [(path ++ ["CMakeLists.txt"], root_cmake_content n),
         (path ++ ["src", "CMakeLists.txt"], src_cmake_content),
         (path ++ ["tests", "CMakeLists.txt"], tests_cmake_content),
         (path ++ ["docs", "CMakeLists.txt"], docs_cmake_content)] := by
  unfold create_cmake_filesB
  simp [create_fileB_writeCalls]

theorem create_cmake_filesB_mkdirCalls (env : Env) (w : World)
    (path : List String) (n : String) :
    ((create_cmake_filesB env w path n).1).mkdirCalls = w.mkdirCalls := by
  unfold create_cmake_filesB
  simp [create_fileB_mkdirCalls]

theorem create_cmake_filesB_gitCalls (env : Env) (w : World)
    (path : List String) (n : String) :
    ((create_cmake_filesB env w path n).1).gitCalls = w.gitCalls := by
  unfold create_cmake_filesB
  simp [create_fileB_gitCalls]

/-! ## Stage lemmas for the orchestrator -/

theorem subdirFold_mkdirCalls (env : Env) (root : List String) :
    ∀ (ds : List String) (s : OState),
      ((List.foldl (subdirStep env root) s ds).w).mkdirCalls =
        s.w.mkdirCalls ++ ds.map (fun d => root ++ [d]) := by
  intro ds
  induction ds with
  | nil => intro s; simp
  | cons d rest ih =>
    intro s
    simp only [List.foldl_cons, List.map_cons, ih]
    simp [subdirStep, create_directoryB_mkdirCalls]

theorem subdirFold_writeCalls (env : Env) (root : List String) :
    ∀ (ds : List String) (s : OState),
      ((List.foldl (subdirStep env root) s ds).w).writeCalls =
        s.w.writeCalls := by
  intro ds
  induction ds with
  | nil => intro s; rfl
  | cons d rest ih =>
    intro s
    simp only [List.foldl_cons, ih]
    simp [subdirStep, create_directoryB_writeCalls]

theorem subdirFold_gitCalls (env : Env) (root : List String) :
    ∀ (ds : List String) (s : OState),
      ((List.foldl (subdirStep env root) s ds).w).gitCalls =
        s.w.gitCalls := by
  intro ds
  induction ds with
  | nil => intro s; rfl
  | cons d rest ih =>
    intro s
    simp only [List.foldl_cons, ih]
    simp [subdirStep, create_directoryB_gitCalls]

theorem subdirFold_warnings_mono (env : Env) (root : List String)
    (x : String) :
    ∀ (ds : List String) (s : OState), x ∈ s.warnings →
      x ∈ (List.foldl (subdirStep env root) s ds).warnings := by
  intro ds
  induction ds with
  | nil => intro s h; exact h
  | cons d rest ih =>
    intro s h
    refine ih _ ?_
    simp only [subdirStep]
    split
    · exact h
    · exact List.mem_append_left _ h

theorem subdirFold_warn_of_err (env : Env) (root : List String) :
    ∀ (ds : List String) (s : OState) (d : String), d ∈ ds →
      (env.mkdirErr (root ++ [d])).isSome = true →
      warnSubdir d ∈ (List.foldl (subdirStep env root) s ds).warnings := by
  intro ds
  induction ds with
  | nil => intro s d h; cases h
  | cons d0 rest ih =>
    intro s d hmem herr
    rcases List.mem_cons.mp hmem with h | h
    · subst h
      simp only [List.foldl_cons]
      refine subdirFold_warnings_mono env root _ rest _ ?_
      simp only [subdirStep, create_directoryB_snd]
      have : (env.mkdirErr (root ++ [d])).isNone = false := by
        cases henv : env.mkdirErr (root ++ [d]) with
        | none => rw [henv] at herr; cases herr
        | some e => rfl
      rw [this]
      simp
    · exact ih _ d h herr

theorem subdirFold_warnings_cases (env : Env) (root : List String)
    (x : String) :
    ∀ (ds : List String) (s : OState),
      x ∈ (List.foldl (subdirStep env root) s ds).warnings →
      x ∈ s.warnings ∨ ∃ d ∈ ds, x = warnSubdir d := by
  intro ds
  induction ds with
  | nil => intro s h; exact Or.inl h
  | cons d rest ih =>
    intro s h
    rcases ih _ h with h1 | h1
    · simp only [subdirStep] at h1
      split at h1
      · exact Or.inl h1
      · rcases List.mem_append.mp h1 with h2 | h2
        · exact Or.inl h2
        · refine Or.inr ⟨d, List.mem_cons_self d rest, ?_⟩
          simpa using h2
    · rcases h1 with ⟨d1, hd1, hx⟩
      exact Or.inr ⟨d1, List.mem_cons_of_mem _ hd1, hx⟩

theorem gitStage_warnings (env : Env) (root : List String) (s : OState) :
    (gitStage env root s).warnings =
      if env.gitErr.isNone then s.warnings else s.warnings ++ [warnGit] :=
  rfl

theorem gitStage_w (env : Env) (root : List String) (s : OState) :
    (gitStage env root s).w =
      { s.w with gitCalls := s.w.gitCalls ++ [root] } :=
  rfl

theorem fileStage_warnings (env : Env) (p : List String) (c msg : String)
    (s : OState) :
    (fileStage env p c msg s).warnings =
      if (create_fileB env s.w p c).2 then s.warnings
      else s.warnings ++ [msg] :=
  rfl

theorem fileStage_warnings_mono (env : Env) (p : List String) (c msg x : String)
    (s : OState) (h : x ∈ s.warnings) :
    x ∈ (fileStage env p c msg s).warnings := by
  rw [fileStage_warnings]
  split
  · exact h
  · exact List.mem_append_left _ h

theorem fileStage_warn_of_err (env : Env) (p : List String) (c msg : String)
    (s : OState) (e : FsErr) (h : env.writeErr p = some e) :
    msg ∈ (fileStage env p c msg s).warnings := by
  rw [fileStage_warnings, create_fileB_snd_of_err env s.w p c e h]
  simp

theorem fileStage_warnings_cases (env : Env) (p : List String)
    (c msg x : String) (s : OState)
    (h : x ∈ (fileStage env p c msg s).warnings) :
    x ∈ s.warnings ∨ x = msg := by
  rw [fileStage_warnings] at h
  split at h
  · exact Or.inl h
  · rcases List.mem_append.mp h with h1 | h1
    · exact Or.inl h1
    · exact Or.inr (by simpa using h1)

theorem fileStage_w_writeCalls (env : Env) (p : List String) (c msg : String)
    (s : OState) :
    ((fileStage env p c msg s).w).writeCalls =
      s.w.writeCalls ++ [(p, c)] :=
  create_fileB_writeCalls env s.w p c

theorem fileStage_w_mkdirCalls (env : Env) (p : List String) (c msg : String)
    (s : OState) :
    ((fileStage env p c msg s).w).mkdirCalls = s.w.mkdirCalls :=
  create_fileB_mkdirCalls env s.w p c

theorem fileStage_w_gitCalls (env : Env) (p : List String) (c msg : String)
    (s : OState) :
    ((fileStage env p c msg s).w).gitCalls = s.w.gitCalls :=
  create_fileB_gitCalls env s.w p c

theorem cmakeStage_warnings (env : Env) (root : List String) (n : String)
    (s : OState) : (cmakeStage env root n s).warnings = s.warnings :=
  rfl

theorem cmakeStage_w_writeCalls (env : Env) (root : List String) (n : String)
    (s : OState) :
    ((cmakeStage env root n s).w).writeCalls =
      s.w.writeCalls ++
        [(root ++ ["CMakeLists.txt"], root_cmake_content n),
         (root ++ ["src", "CMakeLists.txt"], src_cmake_content),
         (root ++ ["tests", "CMakeLists.txt"], tests_cmake_content),
         (root ++ ["docs", "CMakeLists.txt"], docs_cmake_content)] :=
  create_cmake_filesB_writeCalls env s.w root n

theorem cmakeStage_w_mkdirCalls (env : Env) (root : List String) (n : String)
    (s : OState) :
    ((cmakeStage env root n s).w).mkdirCalls = s.w.mkdirCalls :=
  create_cmake_filesB_mkdirCalls env s.w root n

theorem cmakeStage_w_gitCalls (env : Env) (root : List String) (n : String)
    (s : OState) :
    ((cmakeStage env root n s).w).gitCalls = s.w.gitCalls :=
  create_cmake_filesB_gitCalls env s.w root n

theorem gitStage_warnings_mono (env : Env) (root : List String) (x : String)
    (s : OState) (h : x ∈ s.warnings) :
    x ∈ (gitStage env root s).warnings := by
  rw [gitStage_warnings]
  split
  · exact h
  · exact List.mem_append_left _ h

theorem gitStage_warn_of_err (env : Env) (root : List String) (s : OState)
    (h : env.gitErr.isSome = true) :
    warnGit ∈ (gitStage env root s).warnings := by
  rw [gitStage_warnings]
  have : env.gitErr.isNone = false := by
    cases henv : env.gitErr with
    | none => rw [henv] at h; cases h
    | some e => rfl
  rw [this]
  simp

theorem gitStage_warnings_cases (env : Env) (root : List String) (x : String)
    (s : OState) (h : x ∈ (gitStage env root s).warnings) :
    x ∈ s.warnings ∨ x = warnGit := by
  rw [gitStage_warnings] at h
  split at h
  · exact Or.inl h
  · rcases List.mem_append.mp h with h1 | h1
    · exact Or.inl h1
    · exact Or.inr (by simpa using h1)

/-! ## Characterisation of the orchestrator run -/

theorem body_outcome (n : String) (env : Env) (fs : FS) :
    (setup_cpp_project_body n env fs).outcome =
      if (env.mkdirErr [n]).isNone then .completed else .aborted := by
  simp only [setup_cpp_project_body]
  rw [create_directoryB_snd]
  cases h : (env.mkdirErr [n]).isNone <;> simp [h]

theorem body_cond_true (n : String) (env : Env) (fs : FS)
    (h : env.mkdirErr [n] = none) :
    (create_directoryB env (World.init fs) [n]).2 = true := by
  rw [create_directoryB_snd, h]
  rfl

theorem body_writeCalls (n : String) (env : Env) (fs : FS)
    (h : env.mkdirErr [n] = none) :
    ((setup_cpp_project_body n env fs).w).writeCalls = generatedWrites n := by
  simp only [setup_cpp_project_body]
  rw [body_cond_true n env fs h]
  simp only [if_true, subdirStage]
  simp [fileStage_w_writeCalls, cmakeStage_w_writeCalls, gitStage_w,
    subdirFold_writeCalls, create_directoryB_writeCalls, World.init,
    generatedWrites]

theorem body_mkdirCalls (n : String) (env : Env) (fs : FS)
    (h : env.mkdirErr [n] = none) :
    ((setup_cpp_project_body n env fs).w).mkdirCalls = generatedDirs n := by
  simp only [setup_cpp_project_body]
  rw [body_cond_true n env fs h]
  simp only [if_true, subdirStage]
  simp only [fileStage_w_mkdirCalls, cmakeStage_w_mkdirCalls, gitStage_w,
    subdirFold_mkdirCalls, create_directoryB_mkdirCalls]
  simp [World.init, SUBDIRS, generatedDirs]

theorem body_gitCalls (n : String) (env : Env) (fs : FS)
    (h : env.mkdirErr [n] = none) :
    ((setup_cpp_project_body n env fs).w).gitCalls = [[n]] := by
  simp only [setup_cpp_project_body]
  rw [body_cond_true n env fs h]
  simp only [if_true, subdirStage]
  simp [fileStage_w_gitCalls, cmakeStage_w_gitCalls, gitStage_w,
    subdirFold_gitCalls, create_directoryB_gitCalls, World.init]

theorem body_warnings_cases (n : String) (env : Env) (fs : FS) (x : String)
    (h : x ∈ (setup_cpp_project_body n env fs).warnings) :
    x ∈ allWarnList := by
  simp only [setup_cpp_project_body] at h
  by_cases hc : (create_directoryB env (World.init fs) [n]).2 = true
  · rw [hc] at h
    simp only [if_true, subdirStage] at h
    rcases fileStage_warnings_cases _ _ _ _ _ _ h with h | h
    rotate_left
    · subst h; simp [allWarnList]
    rcases fileStage_warnings_cases _ _ _ _ _ _ h with h | h
    rotate_left
    · subst h; simp [allWarnList]
    rcases fileStage_warnings_cases _ _ _ _ _ _ h with h | h
    rotate_left
    · subst h; simp [allWarnList]
    rw [cmakeStage_warnings] at h
    rcases fileStage_warnings_cases _ _ _ _ _ _ h with h | h
    rotate_left
    · subst h; simp [allWarnList]
    rcases fileStage_warnings_cases _ _ _ _ _ _ h with h | h
    rotate_left
    · subst h; simp [allWarnList]
    rcases gitStage_warnings_cases _ _ _ _ h with h | h
    rotate_left
    · subst h; simp [allWarnList]
    rcases subdirFold_warnings_cases _ _ _ _ _ h with h | h
    · cases h
    · rcases h with ⟨d, hd, hx⟩
      subst hx
      simp only [allWarnList, List.mem_append]
      exact Or.inr (List.mem_map_of_mem warnSubdir hd)
  · rw [Bool.not_eq_true] at hc
    rw [hc] at h
    simp at h

theorem body_warn_subdir (n d : String) (env : Env) (fs : FS)
    (h : env.mkdirErr [n] = none) (hd : d ∈ SUBDIRS)
    (herr : (env.mkdirErr [n, d]).isSome = true) :
    warnSubdir d ∈ (setup_cpp_project_body n env fs).warnings := by
  simp only [setup_cpp_project_body]
  rw [body_cond_true n env fs h]
  simp only [if_true, subdirStage]
  apply fileStage_warnings_mono
  apply fileStage_warnings_mono
  apply fileStage_warnings_mono
  rw [cmakeStage_warnings]
  apply fileStage_warnings_mono
  apply fileStage_warnings_mono
  apply gitStage_warnings_mono
  exact subdirFold_warn_of_err env [n] SUBDIRS _ d hd herr

theorem body_warn_git (n : String) (env : Env) (fs : FS)
    (h : env.mkdirErr [n] = none) (herr : env.gitErr.isSome = true) :
    warnGit ∈ (setup_cpp_project_body n env fs).warnings := by
  simp only [setup_cpp_project_body]
  rw [body_cond_true n env fs h]
  simp only [if_true, subdirStage]
  apply fileStage_warnings_mono
  apply fileStage_warnings_mono
  apply fileStage_warnings_mono
  rw [cmakeStage_warnings]
  apply fileStage_warnings_mono
  apply fileStage_warnings_mono
  exact gitStage_warn_of_err env [n] _ herr

theorem body_warn_gitignore (n : String) (env : Env) (fs : FS) (e : FsErr)
    (h : env.mkdirErr [n] = none)
    (herr : env.writeErr [n, ".gitignore"] = some e) :
    warnGitignore ∈ (setup_cpp_project_body n env fs).warnings := by
  simp only [setup_cpp_project_body]
  rw [body_cond_true n env fs h]
  simp only [if_true]
  apply fileStage_warnings_mono
  apply fileStage_warnings_mono
  apply fileStage_warnings_mono
  rw [cmakeStage_warnings]
  apply fileStage_warnings_mono
  exact fileStage_warn_of_err env _ _ _ _ e herr

theorem body_warn_readme (n : String) (env : Env) (fs : FS) (e : FsErr)
    (h : env.mkdirErr [n] = none)
    (herr : env.writeErr [n, "README.md"] = some e) :
    warnReadme ∈ (setup_cpp_project_body n env fs).warnings := by
  simp only [setup_cpp_project_body]
  rw [body_cond_true n env fs h]
  simp only [if_true]
  apply fileStage_warnings_mono
  apply fileStage_warnings_mono
  apply fileStage_warnings_mono
  rw [cmakeStage_warnings]
  exact fileStage_warn_of_err env _ _ _ _ e herr

theorem body_warn_main (n : String) (env : Env) (fs : FS) (e : FsErr)
    (h : env.mkdirErr [n] = none)
    (herr : env.writeErr [n, "src", "main.cpp"] = some e) :
    warnMain ∈ (setup_cpp_project_body n env fs).warnings := by
  simp only [setup_cpp_project_body]
  rw [body_cond_true n env fs h]
  simp only [if_true]
  apply fileStage_warnings_mono
  apply fileStage_warnings_mono
  exact fileStage_warn_of_err env _ _ _ _ e herr

theorem body_warn_header (n : String) (env : Env) (fs : FS) (e : FsErr)
    (h : env.mkdirErr [n] = none)
    (herr : env.writeErr [n, "include", "project_header.h"] = some e) :
    warnHeader ∈ (setup_cpp_project_body n env fs).warnings := by
  simp only [setup_cpp_project_body]
  rw [body_cond_true n env fs h]
  simp only [if_true]
  apply fileStage_warnings_mono
  exact fileStage_warn_of_err env _ _ _ _ e herr

theorem body_warn_test (n : String) (env : Env) (fs : FS) (e : FsErr)
    (h : env.mkdirErr [n] = none)
    (herr : env.writeErr [n, "tests", "test_main.cpp"] = some e) :
    warnTest ∈ (setup_cpp_project_body n env fs).warnings := by
  simp only [setup_cpp_project_body]
  rw [body_cond_true n env fs h]
  simp only [if_true]
  exact fileStage_warn_of_err env _ _ _ _ e herr

/-- A fresh, unobstructed run computed in closed form: it completes with no
warnings, creates exactly the root directory and the six subdirectories,
and writes exactly the nine generated files. -/
theorem body_noFail (n : String) :
    setup_cpp_project_body n noFailEnv FS.empty =
      ⟨⟨⟨generatedDirs n, generatedWrites n⟩, generatedDirs n,
        generatedWrites n, [[n]]⟩, .completed, []⟩ := by
  simp [setup_cpp_project_body, subdirStage, subdirStep, gitStage, fileStage,
    cmakeStage, create_directoryB, create_fileB, create_cmake_filesB,
    initialize_git_repoB, noFailEnv, World.init, applyMkdir, ancestorsOf,
    addDir, setFileFS, setFiles, parentDir, SUBDIRS, generatedDirs,
    generatedWrites, FS.empty, List.range_succ, List.dropLast]

/-! ## Helper lemmas for idempotence and determinism -/

theorem applyMkdir_of_mem (fs : FS) (p : List String) (h : p ∈ fs.dirs) :
    applyMkdir fs p = fs := by
  simp [applyMkdir, h]

theorem mem_foldl_addDir (l : List (List String)) (ds : List (List String))
    (x : List String) (h : x ∈ ds ∨ x ∈ l) : x ∈ l.foldl addDir ds := by
  induction l generalizing ds with
  | nil => simpa using h
  | cons a l ih =>
    simp only [List.foldl_cons]
    apply ih
    have haddDir : ∀ y, y ∈ ds ∨ y = a → y ∈ addDir ds a := by
      intro y hy
      unfold addDir
      rcases hy with hy | hy
      · split
        · exact hy
        · exact List.mem_append_left _ hy
      · subst hy
        split
        · assumption
        · simp
    rcases h with h | h
    · exact Or.inl (haddDir x (Or.inl h))
    · rcases List.mem_cons.mp h with h | h
      · exact Or.inl (haddDir x (Or.inr h))
      · exact Or.inr h

theorem self_mem_ancestorsOf (p : List String) (h : p ≠ []) :
    p ∈ ancestorsOf p := by
  unfold ancestorsOf
  have hlen : 0 < p.length := List.length_pos.mpr h
  refine List.mem_map.mpr ⟨p.length - 1, List.mem_range.mpr (by omega), ?_⟩
  have hk : p.length - 1 + 1 = p.length := by omega
  rw [hk, List.take_length]

theorem mem_applyMkdir_self (fs : FS) (p : List String) (h : p ≠ []) :
    p ∈ (applyMkdir fs p).dirs := by
  unfold applyMkdir
  split
  · assumption
  · exact mem_foldl_addDir _ _ _ (Or.inr (self_mem_ancestorsOf p h))

theorem applyMkdir_nil (fs : FS) : applyMkdir fs [] = fs := by
  unfold applyMkdir
  split
  · rfl
  · simp [ancestorsOf]

theorem applyMkdir_idem (fs : FS) (p : List String) :
    applyMkdir (applyMkdir fs p) p = applyMkdir fs p := by
  rcases eq_or_ne p [] with rfl | hne
  · rw [applyMkdir_nil, applyMkdir_nil]
  · exact applyMkdir_of_mem _ _ (mem_applyMkdir_self fs p hne)

/-- A completed run implies the root `mkdir` did not fail. -/
theorem mkdirErr_none_of_completed (n : String) (env : Env) (fs : FS)
    (h : (setup_cpp_project_body n env fs).outcome = .completed) :
    env.mkdirErr [n] = none := by
  rw [body_outcome] at h
  cases hmk : env.mkdirErr [n] with
  | none => rfl
  | some e => rw [hmk] at h; simp at h

/-- Bridge for `create_cmake_files`: its `try` body never raises, so the
function returns the written filesystem and `True`. -/
theorem create_cmake_files_eq_B (env : Env) (w : World) (path : List String)
    (name : String) :
    create_cmake_files env w.fs path name =
      .ok (((create_cmake_filesB env w path name).1).fs, true) := by
  simp only [create_cmake_files, create_cmake_filesB, create_file_eq_B,
    exceptBind_ok]

/-- The header file written by an unobstructed run. -/
theorem lookup_header_noFail (n : String) :
    lookupFileContent ((setup_cpp_project_body n noFailEnv FS.empty).w).fs
      [n, "include", "project_header.h"] = some header_content := by
  rw [body_noFail n]
  simp [lookupFileContent, generatedWrites, List.filter]

/-! ## Claim theorems -/

/-- Claim C1: for every fresh validated project name `n` (empty initial
filesystem, no OS failures), the full post-validation workflow completes
and produces exactly the root directory `n` with the six fixed
subdirectories, and exactly the nine generated files with their fixed
contents (in particular `src/main.cpp` contains the literal
`"Hello, World!"`). -/
theorem C1_fresh_run_artifacts (n : String)
    (h : is_valid_project_name n = true) :
    (setup_cpp_project_body n noFailEnv FS.empty).outcome = .completed ∧
    ((setup_cpp_project_body n noFailEnv FS.empty).w).fs.dirs =
      generatedDirs n ∧
    ((setup_cpp_project_body n noFailEnv FS.empty).w).fs.files =
      generatedWrites n ∧
    (∃ a b, main_cpp_content = a ++ ("Hello, World!" ++ b)) := by
  rw [body_noFail n]
  refine ⟨rfl, rfl, rfl,
    ⟨"#include <iostream>\n\nint main() \x7b\n    std::cout << \"",
     "\" << std::endl;\n    return 0;\n\x7d\n", by decide⟩⟩

/-- Witness for C1 at the concrete name `"my-app"`. -/
theorem C1_fresh_run_artifacts_witness :
    is_valid_project_name "my-app" = true ∧
    (setup_cpp_project_body "my-app" noFailEnv FS.empty).outcome =
      .completed :=
  ⟨by decide, (C1_fresh_run_artifacts "my-app" (by decide)).1⟩

/-- Claim C2 (code bug): the claim says every string that is empty or
contains a character outside `[a-zA-Z0-9_-]` is rejected, matching the
function's own docstring ("contains only valid characters") and the spec's
"purely a character-class check".  The code uses
`re.match(r"^[a-zA-Z0-9_-]+$", name)`, and Python's `$` also matches just
before a trailing newline, so the nonempty string `"a\n"` — which contains
the out-of-set character `'\n'` — is accepted.  This theorem evaluates the
code at the failing input. -/
theorem C2_validator_accepts_trailing_newline :
    is_valid_project_name "a\n" = true ∧ isWordChar '\n' = false ∧
      ("a\n" : String).length = 2 := by
  refine ⟨by decide, by decide, by decide⟩

/-- Claim C3: every nonempty string all of whose characters are in the
class `[a-zA-Z0-9_-]` is accepted by the Name Validator. -/
theorem C3_validator_accepts_wordlike (s : String) (h1 : s.data ≠ [])
    (h2 : ∀ c ∈ s.data, isWordChar c = true) :
    is_valid_project_name s = true := by
  simp only [is_valid_project_name]
  have hlen : 0 < s.data.length := List.length_pos.mpr h1
  apply List.any_eq_true.mpr
  refine ⟨s.data.length - 1, List.mem_range.mpr (by omega), ?_⟩
  have hk : s.data.length - 1 + 1 = s.data.length := by omega
  rw [hk, List.take_length, List.drop_length]
  simp [List.all_eq_true.mpr h2]

/-- Witness for C3 at the concrete name `"my-app"`. -/
theorem C3_validator_accepts_wordlike_witness :
    (("my-app" : String).data ≠ [] ∧
      ∀ c ∈ ("my-app" : String).data, isWordChar c = true) ∧
    is_valid_project_name "my-app" = true :=
  ⟨⟨by decide, by decide⟩,
    C3_validator_accepts_wordlike "my-app" (by decide) (by decide)⟩

/-- Claim C5: for every valid project name `n`, the generated root build
descriptor and readme contain the literal name `n`; the generated header's
include guard is the fixed token `PROJECT_HEADER_H`; and the header file
written by the run does not depend on the name at all (any two runs write
the same header content, namely the constant `header_content`). -/
theorem C5_name_interpolation (n : String)
    (h : is_valid_project_name n = true) :
    (∃ a b, readme_content n = a ++ (n ++ b)) ∧
    (∃ a b, root_cmake_content n = a ++ (n ++ b)) ∧
    (∃ a b, header_content = a ++ ("PROJECT_HEADER_H" ++ b)) ∧
    (∀ m : String,
      lookupFileContent ((setup_cpp_project_body n noFailEnv FS.empty).w).fs
          [n, "include", "project_header.h"] = some header_content ∧
      lookupFileContent ((setup_cpp_project_body m noFailEnv FS.empty).w).fs
          [m, "include", "project_header.h"] =
        lookupFileContent
          ((setup_cpp_project_body n noFailEnv FS.empty).w).fs
          [n, "include", "project_header.h"]) := by
  refine ⟨⟨"# ",
      "\n\nA C++ project.\n\n## Directory Structure\n\n- `src/`: Source files\n- `include/`: Header files\n- `lib/`: Libraries\n- `bin/`: Executable files\n- `tests/`: Unit tests\n- `docs/`: Documentation\n\n## Build Instructions\n\n[Add build instructions here]\n\n## Setup Instructions\n\nTo set up this project, run the `cpp_project_setup.py` script in the folder where you want the C++ project folder to be created. For example:\n\n```sh\npython path/to/cpp_project_setup.py\n```\n\n## License\n\n[Add license information here]\n",
      rfl⟩,
    ⟨"cmake_minimum_required(VERSION 3.10)\nproject(",
      " VERSION 1.0 LANGUAGES CXX)\n\nset(CMAKE_CXX_STANDARD 17)\nset(CMAKE_CXX_STANDARD_REQUIRED True)\n\n# Set output directories\nset(CMAKE_RUNTIME_OUTPUT_DIRECTORY $\x7bCMAKE_BINARY_DIR\x7d/bin)\nset(CMAKE_LIBRARY_OUTPUT_DIRECTORY $\x7bCMAKE_BINARY_DIR\x7d/lib)\nset(CMAKE_ARCHIVE_OUTPUT_DIRECTORY $\x7bCMAKE_BINARY_DIR\x7d/lib)\n\n# Compiler flags\nif (CMAKE_CXX_COMPILER_ID STREQUAL \"GNU\" OR CMAKE_CXX_COMPILER_ID STREQUAL \"Clang\")\n    add_compile_options(-Wall -Wextra -Wpedantic)\nelseif (CMAKE_CXX_COMPILER_ID STREQUAL \"MSVC\")\n    add_compile_options(/W4 /permissive-)\nendif()\n\nadd_subdirectory(src)\nadd_subdirectory(tests)\nadd_subdirectory(docs)\n",
      rfl⟩,
    ⟨"#ifndef ",
      "\n#define PROJECT_HEADER_H\n\n// Add your header content here\n\n#endif // PROJECT_HEADER_H\n",
      by decide⟩, ?_⟩
  intro m
  rw [lookup_header_noFail n, lookup_header_noFail m]
  exact ⟨rfl, rfl⟩

/-- Witness for C5 at the concrete name `"my-app"`. -/
theorem C5_name_interpolation_witness :
    is_valid_project_name "my-app" = true ∧
    (∃ a b, readme_content "my-app" = a ++ ("my-app" ++ b)) :=
  ⟨by decide, (C5_name_interpolation "my-app" (by decide)).1⟩

/-- Claim C6: `create_directory` is idempotent.  When the OS does not
deny the `mkdir` call: it returns `True` (also at the exception level,
raising nothing); if the directory already exists the filesystem is
unchanged; missing ancestors of a new directory are created; and a second
call on the resulting state again returns `True` and leaves the filesystem
unchanged. -/
theorem C6_create_directory_idempotent (env : Env) (w : World)
    (p : List String) (h : env.mkdirErr p = none) :
    (create_directoryB env w p).2 = true ∧
    create_directory env w.fs p =
      .ok (((create_directoryB env w p).1).fs, true) ∧
    (p ∈ w.fs.dirs → ((create_directoryB env w p).1).fs = w.fs) ∧
    (p ∉ w.fs.dirs → ∀ q ∈ ancestorsOf p,
      q ∈ ((create_directoryB env w p).1).fs.dirs) ∧
    ((create_directoryB env (create_directoryB env w p).1 p).1).fs =
      ((create_directoryB env w p).1).fs ∧
    (create_directoryB env (create_directoryB env w p).1 p).2 = true := by
  have hsnd : (create_directoryB env w p).2 = true := by
    rw [create_directoryB_snd, h]; rfl
  have hfs : ((create_directoryB env w p).1).fs = applyMkdir w.fs p := by
    simp [create_directoryB, h]
  refine ⟨hsnd, ?_, ?_, ?_, ?_, ?_⟩
  · rw [create_directory_eq_B env w p, hsnd]
  · intro hmem
    rw [hfs]
    exact applyMkdir_of_mem w.fs p hmem
  · intro hnot q hq
    rw [hfs]
    simp only [applyMkdir, if_neg hnot]
    exact mem_foldl_addDir _ _ _ (Or.inr hq)
  · have hfs2 : ((create_directoryB env (create_directoryB env w p).1 p).1).fs
        = applyMkdir ((create_directoryB env w p).1).fs p := by
      simp [create_directoryB, h]
    rw [hfs2, hfs]
    exact applyMkdir_idem w.fs p
  · rw [create_directoryB_snd, h]; rfl

/-- Witness for C6: creating `["a"]` twice from the empty filesystem, with
no OS failure. -/
theorem C6_create_directory_idempotent_witness :
    noFailEnv.mkdirErr ["a"] = none ∧
    (create_directoryB noFailEnv (World.init FS.empty) ["a"]).2 = true :=
  ⟨rfl, (C6_create_directory_idempotent noFailEnv (World.init FS.empty)
    ["a"] rfl).1⟩

/-- Claim C7: template output is deterministic.  Any two runs with the same
project name that both complete attempt exactly the same file writes, path
and content alike — regardless of the error environment and of the initial
filesystem, so no randomness, timestamp or environment dependence exists in
any generated content. -/
theorem C7_deterministic_templates (n : String) (env1 env2 : Env)
    (fs1 fs2 : FS)
    (h1 : (setup_cpp_project_body n env1 fs1).outcome = .completed)
    (h2 : (setup_cpp_project_body n env2 fs2).outcome = .completed) :
    ((setup_cpp_project_body n env1 fs1).w).writeCalls =
      ((setup_cpp_project_body n env2 fs2).w).writeCalls := by
  rw [body_writeCalls n env1 fs1 (mkdirErr_none_of_completed n env1 fs1 h1),
    body_writeCalls n env2 fs2 (mkdirErr_none_of_completed n env2 fs2 h2)]

/-- Witness for C7: two unobstructed runs of `"my-app"`. -/
theorem C7_deterministic_templates_witness :
    (setup_cpp_project_body "my-app" noFailEnv FS.empty).outcome =
      .completed ∧
    ((setup_cpp_project_body "my-app" noFailEnv FS.empty).w).writeCalls =
      ((setup_cpp_project_body "my-app" noFailEnv FS.empty).w).writeCalls :=
  ⟨by rw [body_noFail],
   C7_deterministic_templates "my-app" noFailEnv noFailEnv FS.empty FS.empty
     (by rw [body_noFail]) (by rw [body_noFail])⟩

/-- Claim C8: `create_cmake_files` returns `True` no matter which of its
four file writes fail (its inner `create_file` calls catch their own
errors, so the `try` body never raises), and consequently the
orchestrator's "Failed to create CMakeLists.txt files" warning is never
logged in any run. -/
theorem C8_create_cmake_files_always_true (env : Env) (w : World)
    (path : List String) (name : String) (n : String) (env2 : Env)
    (fs : FS) :
    (create_cmake_filesB env w path name).2 = true ∧
    create_cmake_files env w.fs path name =
      .ok (((create_cmake_filesB env w path name).1).fs, true) ∧
    warnCmake ∉ (setup_cpp_project_body n env2 fs).warnings := by
  refine ⟨rfl, create_cmake_files_eq_B env w path name, fun hmem => ?_⟩
  exact absurd (body_warnings_cases n env2 fs warnCmake hmem) (by decide)

/-- Witness for C8 at a concrete environment, path and name. -/
theorem C8_create_cmake_files_always_true_witness :
    (create_cmake_filesB envAllFail (World.init FS.empty) ["q"] "q").2 =
      true :=
  (C8_create_cmake_files_always_true envAllFail (World.init FS.empty) ["q"]
    "q" "q" envAllFail FS.empty).1

/-- Claim C9: when root-directory creation fails the run is aborted but
`setup_cpp_project` returns normally, so the process exits with status 0 —
the same status as a completed run; a nonzero exit status arises only from
a `KeyboardInterrupt` during prompting. -/
theorem C9_abort_exits_zero (inputs : List InputEvent) (env : Env)
    (fs : FS) (n : String) (hp : promptLoop inputs = .gotName n)
    (hroot : (env.mkdirErr [n]).isSome = true) :
    (setup_cpp_project_body n env fs).outcome = .aborted ∧
    main_exit inputs env fs =
      some (0, ((setup_cpp_project_body n env fs).w).fs) ∧
    (∀ (inputs2 : List InputEvent) (env2 : Env) (fs2 : FS) (c : Nat)
      (r : FS), main_exit inputs2 env2 fs2 = some (c, r) → c ≠ 0 →
      promptLoop inputs2 = .interrupted) := by
  refine ⟨?_, ?_, ?_⟩
  · rw [body_outcome]
    cases hmk : env.mkdirErr [n] with
    | none => rw [hmk] at hroot; cases hroot
    | some e => simp
  · unfold main_exit setup_cpp_project
    rw [hp]
  · intro inputs2 env2 fs2 c r hrun hc
    unfold main_exit setup_cpp_project at hrun
    cases hpl : promptLoop inputs2 with
    | gotName m =>
      rw [hpl] at hrun
      simp only [Option.some.injEq, Prod.mk.injEq] at hrun
      exact absurd hrun.1.symm hc
    | interrupted => rfl
    | exhausted => rw [hpl] at hrun; cases hrun

/-- Witness for C9: the single input line `"x"` with every `mkdir`
denied. -/
theorem C9_abort_exits_zero_witness :
    promptLoop [InputEvent.line "x"] = .gotName "x" ∧
    (envRootFail.mkdirErr ["x"]).isSome = true ∧
    main_exit [InputEvent.line "x"] envRootFail FS.empty =
      some (0, FS.empty) :=
  ⟨by decide, by decide,
    (C9_abort_exits_zero [InputEvent.line "x"] envRootFail FS.empty "x"
      (by decide) (by decide)).2.1.trans (by decide)⟩

/-- Claim C10: the wrapped operations are total over their expected
failure modes: `create_directory` and `create_file` catch
`(PermissionError, OSError)`, and `initialize_git_repo` catches
`(CalledProcessError, FileNotFoundError)`, so each always returns a value
(never propagates an exception) and returns `False` whenever its raw OS
call raised. -/
theorem C10_handlers_total (env : Env) (fs : FS) (p : List String)
    (c : String) :
    (∃ r, create_directory env fs p = .ok r) ∧
    (∃ r, create_file env fs p c = .ok r) ∧
    (∃ b, initialize_git_repo env = .ok b) ∧
    ((env.mkdirErr p).isSome = true →
      create_directory env fs p = .ok (fs, false)) ∧
    ((env.writeErr p).isSome = true →
      create_file env fs p c = .ok (fs, false)) ∧
    (env.gitErr.isSome = true → initialize_git_repo env = .ok false) := by
  refine ⟨?_, ?_, ?_, ?_, ?_, ?_⟩
  · unfold create_directory rawMkdir
    cases env.mkdirErr p with
    | none => exact ⟨_, rfl⟩
    | some e => cases e <;> exact ⟨_, rfl⟩
  · unfold create_file rawWriteText
    cases env.writeErr p with
    | none =>
      by_cases hp : parentDir p ∈ fs.dirs
      · simp [hp]
      · simp [hp, fsHandlerCatches, isOSErrorSubclass]
    | some e => cases e <;> exact ⟨_, rfl⟩
  · unfold initialize_git_repo rawGitInit
    cases env.gitErr with
    | none => exact ⟨_, rfl⟩
    | some e => cases e <;> exact ⟨_, rfl⟩
  · intro hmk
    unfold create_directory rawMkdir
    cases hm : env.mkdirErr p with
    | none => rw [hm] at hmk; cases hmk
    | some e => cases e <;> rfl
  · intro hwr
    unfold create_file rawWriteText
    cases hw : env.writeErr p with
    | none => rw [hw] at hwr; cases hwr
    | some e => cases e <;> rfl
  · intro hg
    unfold initialize_git_repo rawGitInit
    cases hgt : env.gitErr with
    | none => rw [hgt] at hg; cases hg
    | some e => cases e <;> rfl

/-- Witness for C10: the environment in which every call fails. -/
theorem C10_handlers_total_witness :
    (envAllFail.mkdirErr ["a"]).isSome = true ∧
    create_directory envAllFail FS.empty ["a"] = .ok (FS.empty, false) :=
  ⟨by decide,
    (C10_handlers_total envAllFail FS.empty ["a"] "").2.2.2.1 (by decide)⟩

/-- Counterexample to claim C4 as stated: a run in which the write of the
root `CMakeLists.txt` fails still completes, and the failed file creation
is **not** logged as a warning — the warnings list is empty even though the
write was denied and the file is absent afterwards. -/
theorem C4_cmake_failure_not_warned :
    (setup_cpp_project_body "q" envCmakeFail FS.empty).outcome =
      .completed ∧
    envCmakeFail.writeErr ["q", "CMakeLists.txt"] = some .permissionError ∧
    lookupFileContent
      ((setup_cpp_project_body "q" envCmakeFail FS.empty).w).fs
      ["q", "CMakeLists.txt"] = none ∧
    (setup_cpp_project_body "q" envCmakeFail FS.empty).warnings = [] := by
  refine ⟨by decide, by decide, by decide, by decide⟩

/-- Claim C4, amended: after the root directory is successfully created the
run always reaches Completed; every subsequent step is still attempted
(all six subdirectory creations, the VCS initialization, and all nine file
writes); each failing subdirectory creation, the failing VCS
initialization, and each failing write of one of the five individually
guarded files (`.gitignore`, `README.md`, `src/main.cpp`,
`include/project_header.h`, `tests/test_main.cpp`) is logged as a warning —
but a failing write of one of the four `CMakeLists.txt` files produces no
warning; only root-directory creation failure aborts the run. -/
theorem C4_warn_and_continue (n : String) (env : Env) (fs : FS) :
    ((env.mkdirErr [n]).isSome = true →
      (setup_cpp_project_body n env fs).outcome = .aborted) ∧
    (env.mkdirErr [n] = none →
      (setup_cpp_project_body n env fs).outcome = .completed ∧
      ((setup_cpp_project_body n env fs).w).mkdirCalls = generatedDirs n ∧
      ((setup_cpp_project_body n env fs).w).gitCalls = [[n]] ∧
      ((setup_cpp_project_body n env fs).w).writeCalls =
        generatedWrites n ∧
      (∀ d ∈ SUBDIRS, (env.mkdirErr [n, d]).isSome = true →
        warnSubdir d ∈ (setup_cpp_project_body n env fs).warnings) ∧
      (env.gitErr.isSome = true →
        warnGit ∈ (setup_cpp_project_body n env fs).warnings) ∧
      (∀ e, env.writeErr [n, ".gitignore"] = some e →
        warnGitignore ∈ (setup_cpp_project_body n env fs).warnings) ∧
      (∀ e, env.writeErr [n, "README.md"] = some e →
        warnReadme ∈ (setup_cpp_project_body n env fs).warnings) ∧
      (∀ e, env.writeErr [n, "src", "main.cpp"] = some e →
        warnMain ∈ (setup_cpp_project_body n env fs).warnings) ∧
      (∀ e, env.writeErr [n, "include", "project_header.h"] = some e →
        warnHeader ∈ (setup_cpp_project_body n env fs).warnings) ∧
      (∀ e, env.writeErr [n, "tests", "test_main.cpp"] = some e →
        warnTest ∈ (setup_cpp_project_body n env fs).warnings) ∧
      warnCmake ∉ (setup_cpp_project_body n env fs).warnings) := by
  constructor
  · intro hroot
    rw [body_outcome]
    cases hmk : env.mkdirErr [n] with
    | none => rw [hmk] at hroot; cases hroot
    | some e => simp
  · intro h
    refine ⟨?_, body_mkdirCalls n env fs h, body_gitCalls n env fs h,
      body_writeCalls n env fs h,
      fun d hd herr => body_warn_subdir n d env fs h hd herr,
      fun herr => body_warn_git n env fs h herr,
      fun e herr => body_warn_gitignore n env fs e h herr,
      fun e herr => body_warn_readme n env fs e h herr,
      fun e herr => body_warn_main n env fs e h herr,
      fun e herr => body_warn_header n env fs e h herr,
      fun e herr => body_warn_test n env fs e h herr,
      fun hmem =>
        absurd (body_warnings_cases n env fs warnCmake hmem) (by decide)⟩
    rw [body_outcome, h]
    rfl

/-- Witness for C4 (amended): an unobstructed run of `"w"` completes. -/
theorem C4_warn_and_continue_witness :
    noFailEnv.mkdirErr ["w"] = none ∧
    (setup_cpp_project_body "w" noFailEnv FS.empty).outcome = .completed :=
  ⟨rfl, ((C4_warn_and_continue "w" noFailEnv FS.empty).2 rfl).1⟩

end CppForge
